import Mathlib

/-!
Verification development for the sttify TIP core (src/sttify.tip).

Shallow embedding of the two components that carry the design's logic:

* the Insertion Coordinator, CTextService (Tip/TextService.cpp):
  SendText / CanInsert / SetMode and the composition-suppression policy;
* the Command Channel Server, CTipIpcServer (Ipc/TipIpcServer.cpp):
  Start / Stop lifecycle, the listener iteration, message splitting and
  command dispatch.

External collaborators (the TSF thread manager, document manager, context,
named-pipe transport) are modelled as explicit environment records whose
fields record the success or failure of each collaborator call, exactly at
the points where the source consults them.  HRESULTs are modelled by an
inductive covering the values the sources produce.
-/

namespace Sttify

/-- HRESULT values produced by the embedded sources.  The constructor
win32 models HRESULT_FROM_WIN32 of a GetLastError value; it is a failure
exactly when the error code is nonzero. -/
inductive HRes where
  | sOk
  | sFalse
  | eFail
  | eInvalidArg
  | win32 (code : Nat)
deriving DecidableEq

/-- The FAILED(hr) macro: S_OK and S_FALSE are successes, E_FAIL and
E_INVALIDARG are failures, HRESULT_FROM_WIN32(code) fails iff code is
nonzero. -/
def HRes.isFailure : HRes → Bool
  | .sOk => false
  | .sFalse => false
  | .eFail => true
  | .eInvalidArg => true
  | .win32 code => code != 0

/-- State of CTextService (Tip/TextService.h lines 54-64) restricted to the
fields the embedded operations read or write: whether a thread manager is
installed (Activate succeeded), the current mode string, and the pending
edit-session state (pendingText together with the stored context pointer). -/
structure CTextService where
  hasThreadMgr : Bool
  currentMode : String
  pendingText : String
  hasCurrentContext : Bool
deriving DecidableEq

/-- The freshly constructed service (TextService.cpp lines 19-24): no thread
manager yet, current mode initialised to the literal "final-only", no
pending edit-session state. -/
def CTextService.init : CTextService :=
  { hasThreadMgr := false
    currentMode := "final-only"
    pendingText := ""
    hasCurrentContext := false }

/-- A successful Activate call (TextService.cpp lines 30-47) as far as the
embedded operations are concerned: it installs the thread manager.  The
profile/event-sink registration it also performs is host plumbing with no
effect on SendText / CanInsert / SetMode. -/
def CTextService.activate (s : CTextService) : CTextService :=
  { s with hasThreadMgr := true }

/-- SetMode (TextService.cpp lines 156-160): unconditionally replaces the
stored mode under the lock. -/
def CTextService.setMode (s : CTextService) (mode : String) : CTextService :=
  { s with currentMode := mode }

/-- Environment of one coordinator operation: the outcome of every
collaborator call the source makes while it holds the lock.

focusHr/focusPtr: result of ITfThreadMgr::GetFocus and whether the returned
document manager is non-null; topHr/topPtr: likewise for
ITfDocumentMgr::GetTop; compActive: whether the composition-enumeration
chain of _IsCompositionActive (QueryInterface for ITfContextComposition,
EnumCompositions, Next) succeeds and fetches at least one composition view
(any failure in that chain makes it false, as each failing step in the
source returns FALSE); requestHr: result of ITfContext::RequestEditSession;
qiInsertHr: result of the QueryInterface for ITfInsertAtSelection inside
DoEditSession; insertHr: result of InsertTextAtSelection. -/
structure TipEnv where
  focusHr : HRes
  focusPtr : Bool
  topHr : HRes
  topPtr : Bool
  compActive : Bool
  requestHr : HRes
  qiInsertHr : HRes
  insertHr : HRes
deriving DecidableEq

/-- _IsCompositionActive (TextService.cpp lines 221-251): false without a
thread manager, false when GetFocus fails or yields no document manager,
false when GetTop fails or yields no context, then true exactly when the
composition enumeration fetches a first composition view. -/
def CTextService.isCompositionActive (s : CTextService) (e : TipEnv) : Bool :=
  if s.hasThreadMgr = false then false
  else if e.focusHr.isFailure = true ∨ e.focusPtr = false then false
  else if e.topHr.isFailure = true ∨ e.topPtr = false then false
  else e.compActive

/-- The exit points of SendText (TextService.cpp lines 108-136), one
constructor per return statement: E_FAIL without a thread manager, S_FALSE
when suppressed, the GetFocus hr when that call fails or yields no document
manager, the GetTop hr likewise, and otherwise the RequestEditSession hr. -/
inductive SendTextOutcome where
  | noThreadMgr
  | suppressed
  | focusFailed (hr : HRes)
  | topFailed (hr : HRes)
  | requested (hr : HRes)
deriving DecidableEq

/-- The HRESULT each SendText exit point returns. -/
def SendTextOutcome.toHRes : SendTextOutcome → HRes
  | .noThreadMgr => .eFail
  | .suppressed => .sFalse
  | .focusFailed hr => hr
  | .topFailed hr => hr
  | .requested hr => hr

/-- The exit points that mean no usable Text Surface was reached (the spec's
NoEligibleTarget): no thread manager, GetFocus failed or returned no
document manager, GetTop failed or returned no context. -/
def SendTextOutcome.isNoTarget : SendTextOutcome → Bool
  | .noThreadMgr => true
  | .focusFailed _ => true
  | .topFailed _ => true
  | .suppressed => false
  | .requested _ => false

/-- Result of DoEditSession: the updated service state, the list of texts
passed to InsertTextAtSelection (empty or a singleton), and the returned
HRESULT. -/
structure EditSessionResult where
  state : CTextService
  inserted : List String
  hr : HRes
deriving DecidableEq

/-- DoEditSession (TextService.cpp lines 89-106): E_FAIL when there is no
stored context or the pending text is empty (leaving both untouched); the
QueryInterface hr when the ITfInsertAtSelection query fails (again leaving
the pending state untouched); otherwise InsertTextAtSelection is invoked
with the pending text, the pending text is cleared, the context released,
and the insertion hr returned. -/
def CTextService.doEditSession (s : CTextService) (e : TipEnv) : EditSessionResult :=
  if s.hasCurrentContext = false ∨ s.pendingText = "" then ⟨s, [], .eFail⟩
  else if e.qiInsertHr.isFailure = true then ⟨s, [], e.qiInsertHr⟩
  else ⟨{ s with pendingText := "", hasCurrentContext := false }, [s.pendingText], e.insertHr⟩

/-- Result of SendText: which exit point was taken, the service state
afterwards, and the list of texts passed to the Text Surface's insert
function during the call. -/
structure SendTextResult where
  outcome : SendTextOutcome
  state : CTextService
  inserted : List String
deriving DecidableEq

/-- SendText (TextService.cpp lines 108-136).  Under the lock: E_FAIL
without a thread manager; S_FALSE (suppression, no insertion) when the
current mode equals "final-only" and _IsCompositionActive reports an active
composition; the GetFocus hr when that call fails or yields no document
manager; the GetTop hr likewise; otherwise the pending text and context are
stored and RequestEditSession is issued with TF_ES_SYNC, so a successful
request runs DoEditSession synchronously; the RequestEditSession hr is
returned and the session hr is discarded. -/
def CTextService.sendText (s : CTextService) (e : TipEnv) (text : String) : SendTextResult :=
  if s.hasThreadMgr = false then ⟨.noThreadMgr, s, []⟩
  else if s.currentMode = "final-only" ∧ s.isCompositionActive e = true then
    ⟨.suppressed, s, []⟩
  else if e.focusHr.isFailure = true ∨ e.focusPtr = false then ⟨.focusFailed e.focusHr, s, []⟩
  else if e.topHr.isFailure = true ∨ e.topPtr = false then ⟨.topFailed e.topHr, s, []⟩
  else
    let s1 : CTextService := { s with pendingText := text, hasCurrentContext := true }
    if e.requestHr.isFailure = true then ⟨.requested e.requestHr, s1, []⟩
    else
      let r := s1.doEditSession e
      ⟨.requested e.requestHr, r.state, r.inserted⟩

/-- CanInsert (TextService.cpp lines 138-154).  Under the lock: FALSE
without a thread manager, FALSE when the current mode equals "final-only"
and a composition is active, FALSE when GetFocus fails or yields no
document manager, otherwise TRUE.  Note the source stops at the GetFocus
check: it does not perform the GetTop check that SendText performs. -/
def CTextService.canInsert (s : CTextService) (e : TipEnv) : Bool :=
  if s.hasThreadMgr = false then false
  else if s.currentMode = "final-only" ∧ s.isCompositionActive e = true then false
  else if e.focusHr.isFailure = true ∨ e.focusPtr = false then false
  else true

/-! ### Command parsing (Ipc/TipIpcServer.cpp) -/

/-- The commands _ProcessMessage can dispatch to the text service. -/
inductive Command where
  | sendText (payload : String)
  | canInsert
  | setMode (mode : String)
deriving DecidableEq

/-- What _ProcessMessage does with a raw message: return E_INVALIDARG
without dispatching (empty message or no fields), fall through to S_OK
without dispatching (unrecognized command, or SendText/SetMode without a
second field), or dispatch one command. -/
inductive ProcessResult where
  | invalid
  | ignored
  | dispatch (c : Command)
deriving DecidableEq

/-- The loop of _SplitString (TipIpcServer.cpp lines 181-208) with the
"current" accumulator made explicit: scanning the remaining characters, a
delimiter pushes the accumulated field if it is non-empty and clears it, any
other character is appended to the accumulator, and at the end the
accumulator is pushed if non-empty. -/
def splitStringAux (d : Char) : List Char → List Char → List (List Char)
  | [], cur => if cur = [] then [] else [cur]
  | ch :: rest, cur =>
      if ch = d then
        if cur = [] then splitStringAux d rest []
        else cur :: splitStringAux d rest []
      else splitStringAux d rest (cur ++ [ch])

/-- _SplitString (TipIpcServer.cpp lines 181-208) on character lists. -/
def splitString (l : List Char) (d : Char) : List (List Char) :=
  splitStringAux d l []

/-- _SplitString on Lean strings: split the underlying character list and
rebuild each field as a string. -/
def splitStringS (s : String) (d : Char) : List String :=
  (splitString s.data d).map String.mk

/-- _ProcessMessage (TipIpcServer.cpp lines 145-179): E_INVALIDARG for the
empty message and for a message whose split yields no fields; a first field
"SendText" or "SetMode" dispatches with the second field when one exists
and otherwise falls through undispatched; "CanInsert" dispatches with no
payload; any other first field falls through undispatched. -/
def processMessage (m : String) : ProcessResult :=
  if m = "" then .invalid
  else
    match splitStringS m '|' with
    | [] => .invalid
    | c :: rest =>
      if c = "SendText" then
        match rest with
        | p :: _ => .dispatch (.sendText p)
        | [] => .ignored
      else if c = "CanInsert" then .dispatch .canInsert
      else if c = "SetMode" then
        match rest with
        | p :: _ => .dispatch (.setMode p)
        | [] => .ignored
      else .ignored

/-! ### Server lifecycle (Ipc/TipIpcServer.cpp) -/

/-- State of CTipIpcServer (Ipc/TipIpcServer.h lines 23-28): whether the
thread handle and stop-event handle members are non-null and whether
_isRunning is set, together with ghost counters that track the number of
live listener threads and of open event/thread handles, so that leak
freedom is expressible. -/
structure CTipIpcServer where
  hServerThread : Bool
  hStopEvent : Bool
  isRunning : Bool
  liveThreads : Nat
  openEvents : Nat
  openThreadHandles : Nat
deriving DecidableEq

/-- The freshly constructed server (TipIpcServer.cpp lines 18-24): null
handles, not running, nothing live. -/
def CTipIpcServer.init : CTipIpcServer :=
  { hServerThread := false
    hStopEvent := false
    isRunning := false
    liveThreads := 0
    openEvents := 0
    openThreadHandles := 0 }

/-- Environment of one Start call: whether CreateEvent succeeds and the
GetLastError value when it fails, and likewise for CreateThread. -/
structure StartEnv where
  eventOk : Bool
  eventErr : Nat
  threadOk : Bool
  threadErr : Nat
deriving DecidableEq

/-- Start (TipIpcServer.cpp lines 31-52).  Under the lifecycle lock: S_OK
immediately when already running; otherwise CreateEvent (failure assigns
the null result to the member and returns HRESULT_FROM_WIN32 of the last
error), then CreateThread (failure closes the just-created stop event,
nulls the member, and returns HRESULT_FROM_WIN32 of the last error), and on
success the running flag is set with exactly one new listener thread. -/
def CTipIpcServer.start (sv : CTipIpcServer) (e : StartEnv) : HRes × CTipIpcServer :=
  if sv.isRunning = true then (.sOk, sv)
  else if e.eventOk = false then (.win32 e.eventErr, { sv with hStopEvent := false })
  else
    let sv1 : CTipIpcServer := { sv with hStopEvent := true, openEvents := sv.openEvents + 1 }
    if e.threadOk = false then
      (.win32 e.threadErr,
        { sv1 with
            hServerThread := false
            hStopEvent := false
            openEvents := sv1.openEvents - 1 })
    else
      (.sOk,
        { sv1 with
            hServerThread := true
            openThreadHandles := sv1.openThreadHandles + 1
            liveThreads := sv1.liveThreads + 1
            isRunning := true })

/-- Stop (TipIpcServer.cpp lines 54-80).  Under the lifecycle lock: return
immediately when not running; otherwise clear the running flag, signal the
stop event, join the listener thread (WaitForSingleObject with the 5000 ms
bound, after which the thread has observed the cleared flag or the signaled
event and exited) and close its handle, then close the stop event.  The
model represents the join completing: the listener thread is no longer
live afterwards. -/
def CTipIpcServer.stop (sv : CTipIpcServer) : CTipIpcServer :=
  if sv.isRunning = false then sv
  else
    let sv1 : CTipIpcServer := { sv with isRunning := false }
    let sv2 : CTipIpcServer :=
      if sv1.hServerThread = true then
        { sv1 with
            hServerThread := false
            openThreadHandles := sv1.openThreadHandles - 1
            liveThreads := sv1.liveThreads - 1 }
      else sv1
    if sv2.hStopEvent = true then
      { sv2 with hStopEvent := false, openEvents := sv2.openEvents - 1 }
    else sv2

/-- The bound Stop passes to WaitForSingleObject (TipIpcServer.cpp line 70),
in milliseconds. -/
def STOP_WAIT_MS : Nat := 5000

/-- BUFFER_SIZE (Ipc/TipIpcServer.h line 31). -/
def BUFFER_SIZE : Nat := 4096

/-- The read-request ceiling in characters: the receive buffer is declared
as wchar_t buffer[BUFFER_SIZE] and ReadFile is asked for sizeof(buffer) -
sizeof(wchar_t) bytes (TipIpcServer.cpp lines 127-130), i.e. BUFFER_SIZE - 1
wide characters, the last slot being reserved for the null terminator the
code writes at buffer[bytesRead / sizeof(wchar_t)]. -/
def maxMessageChars : Nat := BUFFER_SIZE - 1

/-- Whether the ReadFile call at TipIpcServer.cpp line 130 returns TRUE.
The pipe is created with PIPE_READMODE_MESSAGE, so when the client's
message does not fit into the requested byte count — more than
maxMessageChars wide characters — ReadFile copies a prefix into the buffer
but returns FALSE with ERROR_MORE_DATA, and the code's if-test skips
processing entirely.  ReadFile returns TRUE, delivering the whole message,
only when the message fits and no other read failure occurs (the ok
argument models the other failure causes). -/
def readFileOk (ok : Bool) (incoming : List Char) : Bool :=
  ok && decide (incoming.length ≤ maxMessageChars)

/-- Environment of one listener-loop iteration (TipIpcServer.cpp lines
96-140): whether CreateNamedPipe succeeds, whether ConnectNamedPipe reports
a connected client, whether ReadFile succeeds, and the client's message. -/
structure IterEnv where
  pipeOk : Bool
  connected : Bool
  readOk : Bool
  incoming : List Char
deriving DecidableEq

/-- Result of one listener-loop iteration: whether the loop terminates,
whether a client connection was accepted, and the _ProcessMessage result
when a message was read. -/
structure IterResult where
  exitsLoop : Bool
  accepted : Bool
  processed : Option ProcessResult
deriving DecidableEq

/-- One iteration of _ServerThread (TipIpcServer.cpp lines 94-143).  The
loop head exits when _isRunning is cleared; a CreateNamedPipe failure
sleeps and loops without accepting anything; WaitForMultipleObjects places
the stop event at index 0, so a signaled stop event wins the wait and the
iteration closes the pipe and breaks without accepting a connection;
otherwise a connected client's message is read: on this message-read-mode
pipe the read succeeds (readFileOk) only when the whole message fits
within the requested byte count, in which case the whole message is handed
to _ProcessMessage; a failed read — including ERROR_MORE_DATA for an
over-long message — is silently dropped; the connection is torn down
unconditionally before looping. -/
def serverIteration (isRunning stopSignaled : Bool) (e : IterEnv) : IterResult :=
  if isRunning = false then ⟨true, false, none⟩
  else if e.pipeOk = false then ⟨false, false, none⟩
  else if stopSignaled = true then ⟨true, false, none⟩
  else if e.connected = true then
    if readFileOk e.readOk e.incoming = true then
      ⟨false, true, some (processMessage (String.mk e.incoming))⟩
    else ⟨false, true, none⟩
  else ⟨false, false, none⟩

/-! ### Lock-interleaving model for the coordinator (claim about _mutex)

SendText, CanInsert and SetMode each hold the single member _mutex of
CTextService for their whole body (TextService.cpp lines 110, 140, 158).
The model below makes the micro-steps of a SendText call (thread A) and a
concurrent SetMode call (thread B) explicit: A acquires the lock, reads the
mode for the suppression check, reads it again at the point of use inside
the same critical section, and releases; B acquires the lock, writes the
new mode, and releases. -/

/-- Which thread holds the coordinator lock. -/
inductive LockOwner where
  | threadA
  | threadB
deriving DecidableEq

/-- Shared state of the interleaving model: the stored mode, the lock
owner, both program counters, and the two mode values thread A's SendText
has read so far. -/
structure CoordState where
  mode : String
  lock : Option LockOwner
  pcA : Nat
  pcB : Nat
  readChk : Option String
  readUse : Option String
deriving DecidableEq

/-- Both threads at their entry points, lock free, nothing read yet. -/
def coordInit (m0 : String) : CoordState :=
  { mode := m0, lock := none, pcA := 0, pcB := 0, readChk := none, readUse := none }

/-- One micro-step of the two concurrent calls.  Thread A (SendText with
text under std::lock_guard of _mutex): acquire, read the mode for the
suppression check, read it again at its point of use, release.  Thread B
(SetMode mNew under the same _mutex): acquire, write the mode, release.
Acquisition requires the lock to be free; no other step touches the lock of
the other thread. -/
inductive CoordStep (mNew : String) : CoordState → CoordState → Prop where
  | aLock (s : CoordState) (hl : s.lock = none) (hpc : s.pcA = 0) :
      CoordStep mNew s { s with lock := some .threadA, pcA := 1 }
  | aReadChk (s : CoordState) (hpc : s.pcA = 1) :
      CoordStep mNew s { s with readChk := some s.mode, pcA := 2 }
  | aReadUse (s : CoordState) (hpc : s.pcA = 2) :
      CoordStep mNew s { s with readUse := some s.mode, pcA := 3 }
  | aUnlock (s : CoordState) (hpc : s.pcA = 3) :
      CoordStep mNew s { s with lock := none, pcA := 4 }
  | bLock (s : CoordState) (hl : s.lock = none) (hpc : s.pcB = 0) :
      CoordStep mNew s { s with lock := some .threadB, pcB := 1 }
  | bWrite (s : CoordState) (hpc : s.pcB = 1) :
      CoordStep mNew s { s with mode := mNew, pcB := 2 }
  | bUnlock (s : CoordState) (hpc : s.pcB = 2) :
      CoordStep mNew s { s with lock := none, pcB := 3 }

/-- States reachable from the initial state by interleaving the two
threads' micro-steps. -/
inductive CoordReach (m0 mNew : String) : CoordState → Prop where
  | base : CoordReach m0 mNew (coordInit m0)
  | next {s t : CoordState} (hr : CoordReach m0 mNew s) (hs : CoordStep mNew s t) :
      CoordReach m0 mNew t

/-- Inductive invariant of the interleaving model: the stored mode is the
old or the new value; a thread inside its critical section owns the lock;
while thread A is between its two reads the first read equals the current
mode; once thread A has performed both reads they agree and hold the old or
the new value in full. -/
def CoordInv (m0 mNew : String) (s : CoordState) : Prop :=
  (s.mode = m0 ∨ s.mode = mNew) ∧
  ((s.pcA = 1 ∨ s.pcA = 2 ∨ s.pcA = 3) → s.lock = some .threadA) ∧
  ((s.pcB = 1 ∨ s.pcB = 2) → s.lock = some .threadB) ∧
  (s.pcA = 2 → s.readChk = some s.mode) ∧
  (3 ≤ s.pcA → s.readChk = s.readUse ∧ (s.readUse = some m0 ∨ s.readUse = some mNew))

/-! ### Concrete fixtures used by witnesses and counterexamples -/

/-- An activated service still in its constructor-default mode. -/
def svcActive : CTextService :=
  { hasThreadMgr := true
    currentMode := "final-only"
    pendingText := ""
    hasCurrentContext := false }

/-- An activated service whose mode has been set to a non-suppressing
name. -/
def svcPlain : CTextService :=
  { svcActive with currentMode := "dictation" }

/-- Collaborators all healthy and a composition in progress. -/
def envComposing : TipEnv :=
  { focusHr := .sOk
    focusPtr := true
    topHr := .sOk
    topPtr := true
    compActive := true
    requestHr := .sOk
    qiInsertHr := .sOk
    insertHr := .sOk }

/-- Collaborators all healthy, no composition. -/
def envIdle : TipEnv :=
  { envComposing with compActive := false }

/-- Focused document manager present but GetTop fails: the state in which
CanInsert and SendText disagree. -/
def envNoTop : TipEnv :=
  { envIdle with topHr := .eFail, topPtr := false }

/-- Both transport resources can be created. -/
def envStartOk : StartEnv :=
  { eventOk := true, eventErr := 0, threadOk := true, threadErr := 0 }

/-- CreateEvent succeeds but CreateThread fails with a nonzero last
error. -/
def envThreadFail : StartEnv :=
  { eventOk := true, eventErr := 0, threadOk := false, threadErr := 6 }

/-- A listener iteration in which the pipe was created and no client ever
connects. -/
def envIterIdle : IterEnv :=
  { pipeOk := true, connected := false, readOk := false, incoming := [] }

/-- Interleaving model, after thread A acquired the lock. -/
def coordS1 : CoordState :=
  { mode := "final-only", lock := some .threadA, pcA := 1, pcB := 0
    readChk := none, readUse := none }

/-- Interleaving model, after thread A's suppression-check read. -/
def coordS2 : CoordState :=
  { mode := "final-only", lock := some .threadA, pcA := 2, pcB := 0
    readChk := some "final-only", readUse := none }

/-- Interleaving model, after thread A's point-of-use read. -/
def coordS3 : CoordState :=
  { mode := "final-only", lock := some .threadA, pcA := 3, pcB := 0
    readChk := some "final-only", readUse := some "final-only" }

/-- Interleaving model, after thread A released the lock. -/
def coordS4 : CoordState :=
  { mode := "final-only", lock := none, pcA := 4, pcB := 0
    readChk := some "final-only", readUse := some "final-only" }

/-! ### Lemmas about _SplitString -/

/-- Every field _SplitString produces is non-empty: a field is only pushed
when the accumulator is non-empty. -/
theorem splitStringAux_ne_nil (d : Char) :
    ∀ (l cur : List Char), ∀ f ∈ splitStringAux d l cur, f ≠ [] := by
  intro l
  induction l with
  | nil =>
    intro cur f hf
    by_cases hc : cur = []
    · simp [splitStringAux, hc] at hf
    · simp [splitStringAux, hc] at hf
      rw [hf]
      exact hc
  | cons ch rest ih =>
    intro cur f hf
    by_cases hd : ch = d
    · by_cases hc : cur = []
      · simp only [splitStringAux, if_pos hd, if_pos hc] at hf
        exact ih [] f hf
      · simp only [splitStringAux, if_pos hd, if_neg hc, List.mem_cons] at hf
        rcases hf with hf | hf
        · rw [hf]; exact hc
        · exact ih [] f hf
    · simp only [splitStringAux, if_neg hd] at hf
      exact ih (cur ++ [ch]) f hf

/-- Concatenating the fields recovers the non-delimiter characters in
order: splitting preserves content and order and drops exactly the
delimiters. -/
theorem splitStringAux_join (d : Char) :
    ∀ (l cur : List Char),
      (splitStringAux d l cur).flatten = cur ++ l.filter (fun c => c != d) := by
  intro l
  induction l with
  | nil =>
    intro cur
    by_cases hc : cur = [] <;> simp [splitStringAux, hc]
  | cons ch rest ih =>
    intro cur
    by_cases hd : ch = d
    · subst hd
      by_cases hc : cur = [] <;>
        simp [splitStringAux, hc, ih, List.filter_cons]
    · have hne : (ch != d) = true := by simp [bne_iff_ne, hd]
      simp [splitStringAux, hd, ih (cur ++ [ch]), List.filter_cons, hne]

/-- A trailing delimiter changes nothing. -/
theorem splitStringAux_append_delim (d : Char) :
    ∀ (l cur : List Char), splitStringAux d (l ++ [d]) cur = splitStringAux d l cur := by
  intro l
  induction l with
  | nil =>
    intro cur
    by_cases hc : cur = [] <;> simp [splitStringAux, hc]
  | cons ch rest ih =>
    intro cur
    by_cases hd : ch = d <;> by_cases hc : cur = [] <;>
      simp [splitStringAux, hd, hc, ih]

/-! ### Claim theorems -/

/-- Claim C1: a SendText call is suppressed exactly when the current mode is
"final-only" and a composition is active on the focused Text Surface; a
suppressed call returns S_FALSE (a success code, not an error), leaves the
service state unchanged and never invokes the Text Surface's insert
function; under any mode other than "final-only" the call is never
suppressed, whatever the composition state. -/
theorem C1_suppression_policy (s : CTextService) (e : TipEnv) (t : String) :
    ((s.sendText e t).outcome = .suppressed ↔
      (s.currentMode = "final-only" ∧ s.isCompositionActive e = true)) ∧
    ((s.sendText e t).outcome = .suppressed →
      (s.sendText e t).inserted = [] ∧ (s.sendText e t).state = s ∧
        (s.sendText e t).outcome.toHRes = .sFalse ∧
        (s.sendText e t).outcome.toHRes.isFailure = false) ∧
    (s.currentMode ≠ "final-only" → (s.sendText e t).outcome ≠ .suppressed) := by
  by_cases hT : s.hasThreadMgr = false
  · refine ⟨?_, ?_, ?_⟩ <;>
      simp [CTextService.sendText, CTextService.isCompositionActive, hT]
  · by_cases hS : s.currentMode = "final-only" ∧ s.isCompositionActive e = true
    · refine ⟨?_, ?_, ?_⟩ <;>
        simp [CTextService.sendText, hT, hS, hS.1, SendTextOutcome.toHRes, HRes.isFailure]
    · by_cases hF : e.focusHr.isFailure = true ∨ e.focusPtr = false
      · refine ⟨?_, ?_, ?_⟩ <;> simp [CTextService.sendText, hT, hS, hF]
      · by_cases hTop : e.topHr.isFailure = true ∨ e.topPtr = false
        · refine ⟨?_, ?_, ?_⟩ <;> simp [CTextService.sendText, hT, hS, hF, hTop]
        · by_cases hR : e.requestHr.isFailure = true
          · refine ⟨?_, ?_, ?_⟩ <;> simp [CTextService.sendText, hT, hS, hF, hTop, hR]
          · refine ⟨?_, ?_, ?_⟩ <;> simp [CTextService.sendText, hT, hS, hF, hTop, hR]

/-- Witness for C1: the activated service in its default mode, with all
collaborators healthy and a composition in progress, suppresses and inserts
nothing. -/
theorem C1_suppression_policy_witness :
    (svcActive.sendText envComposing "x").outcome = .suppressed ∧
    (svcActive.sendText envComposing "x").inserted = [] :=
  ⟨(C1_suppression_policy svcActive envComposing "x").1.mpr ⟨by decide, by decide⟩,
   ((C1_suppression_policy svcActive envComposing "x").2.1
      ((C1_suppression_policy svcActive envComposing "x").1.mpr ⟨by decide, by decide⟩)).1⟩

/-- Counterexample to C2 as stated: with a healthy focused document manager
whose GetTop call fails, CanInsert answers true, yet SendText returns a
no-target outcome (it fails at the GetTop step CanInsert never performs),
so CanInsert is not true precisely when SendText would neither be
suppressed nor report no target. -/
theorem C2_canInsert_counterexample :
    svcPlain.canInsert envNoTop = true ∧
    (svcPlain.sendText envNoTop "x").outcome.isNoTarget = true ∧
    (svcPlain.sendText envNoTop "x").outcome ≠ .suppressed := by
  refine ⟨by decide, by decide, by decide⟩

/-- Claim C2 (amended): CanInsert is a pure query mirroring SendText's
eligibility checks up to and including the GetFocus check but not the
GetTop check: it is true exactly when a thread manager is installed, the
suppression condition does not hold, and a focused document manager exists;
consequently CanInsert = false guarantees that SendText would be suppressed
or report no target, while CanInsert = true still allows SendText to report
no target when the focused document manager has no top context. -/
theorem C2_canInsert_eligibility (s : CTextService) (e : TipEnv) (t : String) :
    (s.canInsert e = true ↔
      (s.hasThreadMgr = true ∧
        ¬(s.currentMode = "final-only" ∧ s.isCompositionActive e = true) ∧
        e.focusHr.isFailure = false ∧ e.focusPtr = true)) ∧
    (s.canInsert e = false →
      (s.sendText e t).outcome = .suppressed ∨ (s.sendText e t).outcome.isNoTarget = true) := by
  constructor
  · by_cases hT : s.hasThreadMgr = false
    · simp [CTextService.canInsert, hT]
    · simp only [Bool.not_eq_false] at hT
      by_cases hS : s.currentMode = "final-only" ∧ s.isCompositionActive e = true
      · simp [CTextService.canInsert, hT, hS]
      · by_cases hF : e.focusHr.isFailure = true ∨ e.focusPtr = false
        · rcases hF with hF | hF
          · simp [CTextService.canInsert, hT, hS, hF]
          · simp [CTextService.canInsert, hT, hS, hF]
        · push_neg at hF
          simp only [Bool.not_eq_true, Bool.not_eq_false] at hF
          simp [CTextService.canInsert, hT, hS, hF.1, hF.2]
  · intro hci
    by_cases hT : s.hasThreadMgr = false
    · right
      simp [CTextService.sendText, hT, SendTextOutcome.isNoTarget]
    · by_cases hS : s.currentMode = "final-only" ∧ s.isCompositionActive e = true
      · left
        simp [CTextService.sendText, hT, hS]
      · by_cases hF : e.focusHr.isFailure = true ∨ e.focusPtr = false
        · right
          simp [CTextService.sendText, hT, hS, hF, SendTextOutcome.isNoTarget]
        · exfalso
          simp [CTextService.canInsert, hT, hS, hF] at hci

/-- Witness for C2 (amended): the non-suppressing service with healthy
collaborators is eligible per the iff, and the unactivated service sends to
no target. -/
theorem C2_canInsert_eligibility_witness :
    svcPlain.canInsert envIdle = true ∧
    ((CTextService.init.sendText envIdle "x").outcome = .suppressed ∨
      (CTextService.init.sendText envIdle "x").outcome.isNoTarget = true) :=
  ⟨(C2_canInsert_eligibility svcPlain envIdle "x").1.mpr
      ⟨by decide, by decide, by decide, by decide⟩,
   (C2_canInsert_eligibility CTextService.init envIdle "x").2 (by decide)⟩

/-- Claim C10: the freshly constructed coordinator already holds the
suppressing mode "final-only", so once activated (and before any SetMode),
its very first SendText is suppressed while a composition is active, and
CanInsert already answers false in that situation. -/
theorem C10_default_mode_suppressing (e : TipEnv) (t : String)
    (hc : (CTextService.init.activate).isCompositionActive e = true) :
    CTextService.init.currentMode = "final-only" ∧
    ((CTextService.init.activate).sendText e t).outcome = .suppressed ∧
    (CTextService.init.activate).canInsert e = false := by
  refine ⟨rfl, ?_, ?_⟩
  · unfold CTextService.sendText
    rw [if_neg (by decide), if_pos ⟨rfl, hc⟩]
  · unfold CTextService.canInsert
    rw [if_neg (by decide), if_pos ⟨rfl, hc⟩]

/-- Witness for C10: with all collaborators healthy and a composition in
progress, the activated default-mode service suppresses its first SendText. -/
theorem C10_default_mode_suppressing_witness :
    CTextService.init.currentMode = "final-only" ∧
    ((CTextService.init.activate).sendText envComposing "x").outcome = .suppressed ∧
    (CTextService.init.activate).canInsert envComposing = false :=
  C10_default_mode_suppressing envComposing "x" (by decide)

/-- Claim C3: splitting collapses consecutive delimiters and drops
leading/trailing ones — every produced field is non-empty, the fields
concatenated in order are exactly the non-delimiter characters, a leading
or trailing delimiter changes nothing — and a message whose split yields no
fields is rejected by _ProcessMessage as invalid, dispatching nothing. -/
theorem C3_split_nonempty_fields (m : List Char) :
    (∀ f ∈ splitString m '|', f ≠ []) ∧
    ((splitString m '|').flatten = m.filter (fun c => c != '|')) ∧
    (splitString ('|' :: m) '|' = splitString m '|') ∧
    (splitString (m ++ ['|']) '|' = splitString m '|') ∧
    (splitStringS (String.mk m) '|' = [] → processMessage (String.mk m) = .invalid) := by
  refine ⟨splitStringAux_ne_nil '|' m [], ?_, ?_, ?_, ?_⟩
  · simpa using splitStringAux_join '|' m []
  · simp [splitString, splitStringAux]
  · exact splitStringAux_append_delim '|' m []
  · intro h
    by_cases hm : String.mk m = ""
    · simp [processMessage, hm]
    · unfold processMessage
      rw [if_neg hm, h]

/-- Witness for C3 at the message of three bare delimiters: its split is
empty and _ProcessMessage rejects it as invalid. -/
theorem C3_split_nonempty_fields_witness :
    splitStringS (String.mk ['|', '|', '|']) '|' = [] ∧
    processMessage (String.mk ['|', '|', '|']) = .invalid :=
  ⟨by decide, (C3_split_nonempty_fields ['|', '|', '|']).2.2.2.2 (by decide)⟩

/-- Claim C4: a SendText message with a payload dispatches that payload, a
SetMode message with a payload dispatches that mode; a message whose split
is exactly the bare field "SendText" or "SetMode" (no second field) falls
through undispatched — it is neither dispatched with an empty payload nor
turned into any other command. -/
theorem C4_dispatch_requires_payload (m : String) :
    processMessage "SendText|hello" = .dispatch (.sendText "hello") ∧
    processMessage "SetMode|final-only" = .dispatch (.setMode "final-only") ∧
    (splitStringS m '|' = ["SendText"] → processMessage m = .ignored) ∧
    (splitStringS m '|' = ["SetMode"] → processMessage m = .ignored) := by
  refine ⟨by decide, by decide, ?_, ?_⟩
  · intro h
    have hm : ¬(m = "") := by
      intro he
      rw [he] at h
      exact absurd h (by decide)
    unfold processMessage
    rw [if_neg hm, h]
    decide
  · intro h
    have hm : ¬(m = "") := by
      intro he
      rw [he] at h
      exact absurd h (by decide)
    unfold processMessage
    rw [if_neg hm, h]
    decide

/-- Witness for C4 at the bare messages "SendText" and "SetMode": each
splits to its single command field and is ignored. -/
theorem C4_dispatch_requires_payload_witness :
    splitStringS "SendText" '|' = ["SendText"] ∧
    processMessage "SendText" = .ignored ∧
    splitStringS "SetMode" '|' = ["SetMode"] ∧
    processMessage "SetMode" = .ignored :=
  ⟨by decide,
   (C4_dispatch_requires_payload "SendText").2.2.1 (by decide),
   by decide,
   (C4_dispatch_requires_payload "SetMode").2.2.2 (by decide)⟩

/-- Claim C5: Start while already running is a no-op returning S_OK that
keeps exactly one listener thread live, and Stop when the server is not
running (including the second of two consecutive Stops) returns leaving the
server Stopped with no listener thread. -/
theorem C5_start_stop_idempotent (sv : CTipIpcServer) (e1 e2 : StartEnv)
    (hrun : sv.isRunning = false) (hth : sv.liveThreads = 0)
    (hev : e1.eventOk = true) (hthr : e1.threadOk = true) :
    (sv.start e1).1 = .sOk ∧
    (sv.start e1).2.isRunning = true ∧
    (sv.start e1).2.liveThreads = 1 ∧
    (sv.start e1).2.start e2 = (.sOk, (sv.start e1).2) ∧
    sv.stop = sv ∧
    ((sv.start e1).2.stop).stop = (sv.start e1).2.stop ∧
    ((sv.start e1).2.stop).isRunning = false ∧
    ((sv.start e1).2.stop).liveThreads = 0 := by
  refine ⟨?_, ?_, ?_, ?_, ?_, ?_, ?_, ?_⟩ <;>
    simp [CTipIpcServer.start, CTipIpcServer.stop, hrun, hth, hev, hthr]

/-- Witness for C5 at the fresh server and the environment in which both
transport resources can be created. -/
theorem C5_start_stop_idempotent_witness :
    (CTipIpcServer.init.start envStartOk).1 = .sOk ∧
    (CTipIpcServer.init.start envStartOk).2.isRunning = true ∧
    (CTipIpcServer.init.start envStartOk).2.liveThreads = 1 ∧
    (CTipIpcServer.init.start envStartOk).2.start envStartOk =
      (.sOk, (CTipIpcServer.init.start envStartOk).2) ∧
    CTipIpcServer.init.stop = CTipIpcServer.init ∧
    ((CTipIpcServer.init.start envStartOk).2.stop).stop =
      (CTipIpcServer.init.start envStartOk).2.stop ∧
    ((CTipIpcServer.init.start envStartOk).2.stop).isRunning = false ∧
    ((CTipIpcServer.init.start envStartOk).2.stop).liveThreads = 0 :=
  C5_start_stop_idempotent CTipIpcServer.init envStartOk envStartOk rfl rfl rfl rfl

/-- Claim C6: a Start that fails at CreateEvent or CreateThread returns a
failing HRESULT (the spec's TransportUnavailable) and leaves the server
state exactly as it was — in particular the stop-event handle created
before a failed thread spawn is closed again and the server stays
Stopped. -/
theorem C6_failed_start_state_unchanged (sv : CTipIpcServer) (e : StartEnv)
    (hrun : sv.isRunning = false)
    (hse : sv.hStopEvent = false) (hst : sv.hServerThread = false)
    (hfail : e.eventOk = false ∨ e.threadOk = false)
    (hev : e.eventOk = false → e.eventErr ≠ 0)
    (hthr : e.threadOk = false → e.threadErr ≠ 0) :
    (sv.start e).1.isFailure = true ∧ (sv.start e).2 = sv := by
  have hbranchA : e.eventOk = false →
      (sv.start e).1.isFailure = true ∧ (sv.start e).2 = sv := by
    intro hf
    have hstart : sv.start e = (.win32 e.eventErr, { sv with hStopEvent := false }) := by
      unfold CTipIpcServer.start
      rw [if_neg (by simp [hrun]), if_pos hf]
    rw [hstart]
    constructor
    · simp only [HRes.isFailure, bne_iff_ne]
      exact hev hf
    · cases sv
      simp_all
  rcases hfail with hf | hf
  · exact hbranchA hf
  · by_cases hevok : e.eventOk = false
    · exact hbranchA hevok
    · have hev2 : e.eventOk = true := by
        cases h : e.eventOk
        · exact absurd h hevok
        · rfl
      have hstart : sv.start e = (.win32 e.threadErr,
          { sv with
              hServerThread := false
              hStopEvent := false
              openEvents := sv.openEvents + 1 - 1 }) := by
        unfold CTipIpcServer.start
        rw [if_neg (by simp [hrun]), if_neg (by simp [hev2]), if_pos hf]
      rw [hstart]
      constructor
      · simp only [HRes.isFailure, bne_iff_ne]
        exact hthr hf
      · cases sv
        simp_all

/-- Witness for C6 at the fresh server when CreateThread fails with last
error 6 (ERROR_INVALID_HANDLE). -/
theorem C6_failed_start_state_unchanged_witness :
    (CTipIpcServer.init.start envThreadFail).1.isFailure = true ∧
    (CTipIpcServer.init.start envThreadFail).2 = CTipIpcServer.init :=
  C6_failed_start_state_unchanged CTipIpcServer.init envThreadFail rfl rfl rfl
    (Or.inr rfl) (fun h => absurd h (by decide)) (fun _ => by decide)

/-- Claim C7: when the stop signal is raised, a listener iteration exits the
loop without accepting a connection or processing anything (the stop event
is at index 0 of the two-signal wait, and the loop head itself exits once
the running flag is cleared); Stop after a successful Start from the fresh
state returns the server to exactly the fresh state — no listener thread
alive, no open handles — and the documented join bound is 5000 ms. -/
theorem C7_stop_observed_exit (e : IterEnv) (es : StartEnv)
    (hp : e.pipeOk = true) (hev : es.eventOk = true) (hthr : es.threadOk = true) :
    serverIteration true true e = ⟨true, false, none⟩ ∧
    (∀ (e2 : IterEnv) (stopSig : Bool), serverIteration false stopSig e2 = ⟨true, false, none⟩) ∧
    (CTipIpcServer.init.start es).2.stop = CTipIpcServer.init ∧
    STOP_WAIT_MS = 5000 := by
  refine ⟨?_, ?_, ?_, rfl⟩
  · simp [serverIteration, hp]
  · intro e2 stopSig
    simp [serverIteration]
  · simp [CTipIpcServer.start, CTipIpcServer.stop, CTipIpcServer.init, hev, hthr]

/-- Witness for C7 at the idle iteration environment and the healthy start
environment. -/
theorem C7_stop_observed_exit_witness :
    serverIteration true true envIterIdle = ⟨true, false, none⟩ ∧
    (CTipIpcServer.init.start envStartOk).2.stop = CTipIpcServer.init :=
  ⟨(C7_stop_observed_exit envIterIdle envStartOk rfl rfl rfl).1,
   (C7_stop_observed_exit envIterIdle envStartOk rfl rfl rfl).2.2.1⟩

/-- Claim C8 (code bug in the source): the spec promises that a message
exceeding the receive buffer is truncated at the buffer boundary and its
prefix processed — an accepted data-loss edge case, not a reason to drop
the message — and the code even reserves a terminator slot for a partial
read; but the pipe is created with PIPE_READMODE_MESSAGE, so for any
message longer than maxMessageChars wide characters ReadFile returns FALSE
with ERROR_MORE_DATA, the processing body is skipped, and the message is
dropped whole.  Evaluating the embedded listener: a healthy connected
client whose message exceeds the bound gets nothing processed at all,
while any message within the bound is processed in full — the promised
truncated-prefix processing never occurs. -/
theorem C8_oversize_dropped (msg : List Char) :
    (msg.length > maxMessageChars →
      serverIteration true false ⟨true, true, true, msg⟩ = ⟨false, true, none⟩) ∧
    (msg.length ≤ maxMessageChars →
      serverIteration true false ⟨true, true, true, msg⟩ =
        ⟨false, true, some (processMessage (String.mk msg))⟩) := by
  constructor
  · intro h
    have hx : ¬(msg.length ≤ maxMessageChars) := by omega
    simp [serverIteration, readFileOk, hx]
  · intro h
    simp [serverIteration, readFileOk, h]

/-- Witness for C8 at the failing input: a 4096-character message (8192
bytes — over both the 4096-byte pipe sizing and the 8190-byte read
request) is dropped unprocessed, while a small message is processed
whole. -/
theorem C8_oversize_dropped_witness :
    serverIteration true false ⟨true, true, true, List.replicate 4096 'a'⟩ =
      ⟨false, true, none⟩ ∧
    serverIteration true false ⟨true, true, true, "SendText|hi".data⟩ =
      ⟨false, true, some (processMessage (String.mk "SendText|hi".data))⟩ :=
  ⟨(C8_oversize_dropped (List.replicate 4096 'a')).1
      (by norm_num [List.length_replicate, maxMessageChars, BUFFER_SIZE]),
   (C8_oversize_dropped "SendText|hi".data).2 (by decide)⟩

/-- The lock invariant holds in the initial state of the interleaving
model. -/
theorem coordInv_init (m0 mNew : String) : CoordInv m0 mNew (coordInit m0) := by
  refine ⟨Or.inl rfl, ?_, ?_, ?_, ?_⟩ <;> simp [coordInit]

/-- Every micro-step of the interleaving model preserves the lock
invariant. -/
theorem coordInv_step {m0 mNew : String} {s t : CoordState}
    (hi : CoordInv m0 mNew s) (hs : CoordStep mNew s t) : CoordInv m0 mNew t := by
  obtain ⟨hmode, hA, hB, hchk, hdone⟩ := hi
  cases hs with
  | aLock hl hpc =>
    refine ⟨hmode, fun _ => rfl, ?_, ?_, ?_⟩
    · intro hb
      have h1 := hB hb
      rw [hl] at h1
      exact absurd h1 (by simp)
    · intro h
      simp at h
    · intro h
      simp at h
  | aReadChk hpc =>
    refine ⟨hmode, fun _ => hA (Or.inl hpc), fun hb => hB hb, fun _ => rfl, ?_⟩
    intro h
    simp at h
  | aReadUse hpc =>
    refine ⟨hmode, fun _ => hA (Or.inr (Or.inl hpc)), fun hb => hB hb, ?_, ?_⟩
    · intro h
      simp at h
    · intro _
      refine ⟨hchk hpc, ?_⟩
      rcases hmode with h | h
      · exact Or.inl (by dsimp only; rw [h])
      · exact Or.inr (by dsimp only; rw [h])
  | aUnlock hpc =>
    refine ⟨hmode, ?_, ?_, ?_, ?_⟩
    · intro h
      simp at h
    · intro hb
      have h1 := hB hb
      have h2 := hA (Or.inr (Or.inr hpc))
      rw [h1] at h2
      exact absurd h2 (by simp)
    · intro h
      simp at h
    · intro _
      exact hdone (by omega)
  | bLock hl hpc =>
    refine ⟨hmode, ?_, fun _ => rfl, fun h => hchk h, fun h => hdone h⟩
    intro h
    have h1 := hA h
    rw [hl] at h1
    exact absurd h1 (by simp)
  | bWrite hpc =>
    refine ⟨Or.inr rfl, ?_, fun _ => hB (Or.inl hpc), ?_, fun h => hdone h⟩
    · intro h
      have h1 := hA h
      have h2 := hB (Or.inl hpc)
      rw [h1] at h2
      exact absurd h2 (by simp)
    · intro h
      have h1 := hA (Or.inr (Or.inl h))
      have h2 := hB (Or.inl hpc)
      rw [h1] at h2
      exact absurd h2 (by simp)
  | bUnlock hpc =>
    refine ⟨hmode, ?_, ?_, fun h => hchk h, fun h => hdone h⟩
    · intro h
      have h1 := hA h
      have h2 := hB (Or.inr hpc)
      rw [h1] at h2
      exact absurd h2 (by simp)
    · intro h
      simp at h

/-- The lock invariant holds in every reachable state of the interleaving
model. -/
theorem coordInv_reach {m0 mNew : String} {s : CoordState}
    (h : CoordReach m0 mNew s) : CoordInv m0 mNew s := by
  induction h with
  | base => exact coordInv_init m0 mNew
  | next hr hs ih => exact coordInv_step ih hs

/-- Claim C9: in every interleaving of a SendText call (thread A) and a
concurrent SetMode call (thread B) that respects the single exclusive lock
_mutex, once the SendText call has completed, the mode it read at its
suppression check equals the mode at its point of use — fully the old or
fully the new value, never torn — and the stored mode itself is always
fully the old or fully the new value: SetMode never interleaves into the
suppression-check-plus-insert critical section. -/
theorem C9_no_torn_mode_read (m0 mNew : String) (s : CoordState)
    (hr : CoordReach m0 mNew s) (hdone : s.pcA = 4) :
    s.readChk = s.readUse ∧
    (s.readUse = some m0 ∨ s.readUse = some mNew) ∧
    (s.mode = m0 ∨ s.mode = mNew) := by
  obtain ⟨hmode, -, -, -, hd⟩ := coordInv_reach hr
  obtain ⟨h1, h2⟩ := hd (by omega)
  exact ⟨h1, h2, hmode⟩

/-- Witness for C9 along the schedule that runs the whole SendText before
SetMode: the completed call's two reads agree on the old mode. -/
theorem C9_no_torn_mode_read_witness :
    coordS4.readChk = coordS4.readUse ∧
    (coordS4.readUse = some "final-only" ∨ coordS4.readUse = some "direct") ∧
    (coordS4.mode = "final-only" ∨ coordS4.mode = "direct") := by
  have h0 : CoordReach "final-only" "direct" (coordInit "final-only") := CoordReach.base
  have h1 := CoordReach.next h0 (CoordStep.aLock (coordInit "final-only") rfl rfl)
  have h2 := CoordReach.next h1 (CoordStep.aReadChk coordS1 rfl)
  have h3 := CoordReach.next h2 (CoordStep.aReadUse coordS2 rfl)
  have h4 := CoordReach.next h3 (CoordStep.aUnlock coordS3 rfl)
  exact C9_no_torn_mode_read "final-only" "direct" coordS4 h4 rfl

end Sttify
